import Mathlib

/-!
Verification of the network-change monitor of the `monitoring` Go package.

The monitor subscribes to three netlink notification streams (link, address,
route), keeps two in-memory sets of interface names (`interfaces`, the
Existence Set, and `newlyCreated`, the Newly-Created Set), and forwards a
content-free generic change signal to an output channel once per handled
event.  Two entry points exist: `startMonitoring` (all classes handled) and
`StartMonitoring` (classes gated by an integer interest-mask flag).

The embedding below translates the handlers and the dispatcher loop into
pure Lean functions.  Go's `map[string]bool` used as a set becomes
`Finset String`; a kernel notification becomes a record; the channel send
becomes a signal count recorded per processed event; the `net.InterfaceByIndex`
lookup becomes an explicit resolution function `Int → Option String`.
-/

/-- `syscall.RTM_NEWLINK` -/
def RTM_NEWLINK : Nat := 16

/-- `syscall.RTM_DELLINK` -/
def RTM_DELLINK : Nat := 17

/-- `syscall.RTM_NEWROUTE` -/
def RTM_NEWROUTE : Nat := 24

/-- `syscall.RTM_DELROUTE` -/
def RTM_DELROUTE : Nat := 25

/-- `net.FlagUp` (bit 0 of the interface flags). -/
def netFlagUp : Nat := 1

/-- A `netlink.LinkUpdate`: the netlink message type from the header, the
interface name (`Link.Attrs().Name`) and operational flags
(`Link.Attrs().Flags`). -/
structure LinkUpdate where
  headerType : Nat
  name : String
  flags : Nat
deriving DecidableEq

/-- A `netlink.AddrUpdate`: the owning interface's kernel index, the
new/removed flag, and the address text (logged only). -/
structure AddrUpdate where
  linkIndex : Int
  newAddr : Bool
  ip : String
deriving DecidableEq

/-- A `netlink.RouteUpdate`: the message type and the destination (logged
only). -/
structure RouteUpdate where
  routeType : Nat
  dst : String
deriving DecidableEq

/-- The two interface-name sets maintained by the monitor: `interfaces` is
the Existence Set, `newlyCreated` the Newly-Created Set (both Go
`map[string]bool` used as sets). -/
structure MonitorState where
  interfaces : Finset String
  newlyCreated : Finset String
deriving DecidableEq

/-- The human-readable classification a handler logs for an event.  A
handler that logs no classification for an event yields `none`. -/
inductive Classification
| linkRemoved
| linkAdded
| linkUp
| linkDown
| addrAdded
| addrRemoved
| routeAdded
| routeRemoved
deriving DecidableEq

/-- Result of `handleLinkUpdate`: the updated sets, the number of sends on
the output channel, and the classification logged. -/
structure LinkResult where
  state : MonitorState
  signals : Nat
  classification : Option Classification
deriving DecidableEq

/-- `handleLinkUpdate` from `monitoring.go`: on `RTM_DELLINK` the name is
deleted from both maps; on `RTM_NEWLINK` with the name not yet present it is
added to both maps; otherwise on `RTM_NEWLINK` the up flag decides between
the "up" branch (removing the name from `newlyCreated`), the suppressed
branch (name still in `newlyCreated`, nothing logged) and the "down" branch.
`send(c)` runs once at the end of every call. -/
def handleLinkUpdate (u : LinkUpdate) (s : MonitorState) : LinkResult :=
  if u.headerType = RTM_DELLINK then
    { state := { interfaces := s.interfaces.erase u.name,
                 newlyCreated := s.newlyCreated.erase u.name },
      signals := 1, classification := some .linkRemoved }
  else if u.name ∉ s.interfaces ∧ u.headerType = RTM_NEWLINK then
    { state := { interfaces := insert u.name s.interfaces,
                 newlyCreated := insert u.name s.newlyCreated },
      signals := 1, classification := some .linkAdded }
  else if u.headerType = RTM_NEWLINK then
    if u.flags &&& netFlagUp ≠ 0 then
      { state := { interfaces := s.interfaces,
                   newlyCreated := s.newlyCreated.erase u.name },
        signals := 1, classification := some .linkUp }
    else if u.name ∉ s.newlyCreated then
      { state := s, signals := 1, classification := some .linkDown }
    else
      { state := s, signals := 1, classification := none }
  else
    { state := s, signals := 1, classification := none }

/-- `handleAddrUpdate` from `monitoring.go`.  The `net.InterfaceByIndex`
lookup is the explicit `resolve` argument.  On resolution failure the event
is only logged and the function returns without sending; otherwise one send
happens with the added/removed classification.  The handler never writes the
interface maps, so it returns only the send count and classification. -/
def handleAddrUpdate (resolve : Int → Option String) (u : AddrUpdate) :
    Nat × Option Classification :=
  match resolve u.linkIndex with
  | none => (0, none)
  | some _ => if u.newAddr then (1, some .addrAdded) else (1, some .addrRemoved)

/-- `handleRouteUpdate` from `monitoring.go`: logs added/removed by message
type (nothing for other types) and always sends once. -/
def handleRouteUpdate (u : RouteUpdate) : Nat × Option Classification :=
  if u.routeType = RTM_NEWROUTE then (1, some .routeAdded)
  else if u.routeType = RTM_DELROUTE then (1, some .routeRemoved)
  else (1, none)

/-- The three notification classes multiplexed by the dispatcher. -/
inductive EventClass
| link
| addr
| route
deriving DecidableEq

/-- One incoming notification, as produced by a `select` over the three
subscription channels. -/
inductive NetEvent
| link (u : LinkUpdate)
| addr (u : AddrUpdate)
| route (u : RouteUpdate)
deriving DecidableEq

/-- The class of an incoming notification. -/
def classOf : NetEvent → EventClass
  | .link _ => .link
  | .addr _ => .addr
  | .route _ => .route

/-- The `link`/`addr`/`route` booleans computed by `StartMonitoring` from
its flag. -/
structure Enabled where
  link : Bool
  addr : Bool
  route : Bool
deriving DecidableEq

/-- Whether a given event class is enabled. -/
def classEnabled (en : Enabled) : EventClass → Bool
  | .link => en.link
  | .addr => en.addr
  | .route => en.route

/-- The `switch flag` at the top of `StartMonitoring`: flags 1..7 select the
seven non-empty subsets of {link, addr, route}; any other flag is the
invalid-configuration case (`none`). -/
def maskEnabled (flag : Int) : Option Enabled :=
  if flag = 1 then some { link := true, addr := false, route := false }
  else if flag = 2 then some { link := false, addr := true, route := false }
  else if flag = 3 then some { link := true, addr := true, route := false }
  else if flag = 4 then some { link := false, addr := false, route := true }
  else if flag = 5 then some { link := true, addr := false, route := true }
  else if flag = 6 then some { link := false, addr := true, route := true }
  else if flag = 7 then some { link := true, addr := true, route := true }
  else none

/-- What the dispatcher did with one incoming notification: the state after
it, the number of sends on the output channel, the classification logged,
and whether the class handler was invoked at all. -/
structure StepOut where
  state : MonitorState
  signals : Nat
  classification : Option Classification
  handlerInvoked : Bool
deriving DecidableEq

/-- One iteration of the `select` loop of `startMonitoring` (the unmasked
entry point): every notification goes straight to its handler. -/
def stepUnmasked (resolve : Int → Option String) (s : MonitorState) :
    NetEvent → StepOut
  | .link u =>
      let r := handleLinkUpdate u s
      { state := r.state, signals := r.signals,
        classification := r.classification, handlerInvoked := true }
  | .addr u =>
      let r := handleAddrUpdate resolve u
      { state := s, signals := r.1, classification := r.2,
        handlerInvoked := true }
  | .route u =>
      let r := handleRouteUpdate u
      { state := s, signals := r.1, classification := r.2,
        handlerInvoked := true }

/-- One iteration of the `select` loop of `StartMonitoring` (the masked
entry point): a notification of a disabled class is received and dropped
without invoking its handler. -/
def stepMasked (en : Enabled) (resolve : Int → Option String)
    (s : MonitorState) : NetEvent → StepOut
  | .link u =>
      if en.link then
        let r := handleLinkUpdate u s
        { state := r.state, signals := r.signals,
          classification := r.classification, handlerInvoked := true }
      else
        { state := s, signals := 0, classification := none,
          handlerInvoked := false }
  | .addr u =>
      if en.addr then
        let r := handleAddrUpdate resolve u
        { state := s, signals := r.1, classification := r.2,
          handlerInvoked := true }
      else
        { state := s, signals := 0, classification := none,
          handlerInvoked := false }
  | .route u =>
      if en.route then
        let r := handleRouteUpdate u
        { state := s, signals := r.1, classification := r.2,
          handlerInvoked := true }
      else
        { state := s, signals := 0, classification := none,
          handlerInvoked := false }

/-- The unmasked dispatcher loop over a finite sequence of notifications:
final state together with the per-event outcomes in order. -/
def runUnmasked (resolve : Int → Option String) (s : MonitorState) :
    List NetEvent → MonitorState × List StepOut
  | [] => (s, [])
  | e :: rest =>
      let o := stepUnmasked resolve s e
      let r := runUnmasked resolve o.state rest
      (r.1, o :: r.2)

/-- The masked dispatcher loop over a finite sequence of notifications. -/
def runMasked (en : Enabled) (resolve : Int → Option String)
    (s : MonitorState) : List NetEvent → MonitorState × List StepOut
  | [] => (s, [])
  | e :: rest =>
      let o := stepMasked en resolve s e
      let r := runMasked en resolve o.state rest
      (r.1, o :: r.2)

/-- The startup seeding: both maps start empty, then every name returned by
`netlink.LinkList()` is inserted into `interfaces`. -/
def seedState (initialLinks : List String) : MonitorState :=
  { interfaces := initialLinks.foldl (fun acc n => insert n acc) ∅,
    newlyCreated := ∅ }

/-- The observable outcome of one monitor invocation: which subscriptions
were established, the per-event outcomes, and the final state (`none` when
the invocation returned before entering the loop). -/
structure SessionResult where
  subscribedAddr : Bool
  subscribedLink : Bool
  subscribedRoute : Bool
  steps : List StepOut
  finalState : Option MonitorState
deriving DecidableEq

/-- `startMonitoring`: subscribes to all three streams, seeds the sets from
the link list, then dispatches every notification unconditionally
(subscription failures are not modelled; the session is the successful
path). -/
def startMonitoringSession (initialLinks : List String)
    (resolve : Int → Option String) (events : List NetEvent) : SessionResult :=
  let r := runUnmasked resolve (seedState initialLinks) events
  { subscribedAddr := true, subscribedLink := true, subscribedRoute := true,
    steps := r.2, finalState := some r.1 }

/-- `StartMonitoring`: decodes the flag first and returns immediately on an
invalid flag, before any subscription is attempted; with a valid flag it
subscribes to all three streams, seeds the sets, and dispatches with the
mask gating. -/
def StartMonitoringSession (flag : Int) (initialLinks : List String)
    (resolve : Int → Option String) (events : List NetEvent) : SessionResult :=
  match maskEnabled flag with
  | none =>
      { subscribedAddr := false, subscribedLink := false,
        subscribedRoute := false, steps := [], finalState := none }
  | some en =>
      let r := runMasked en resolve (seedState initialLinks) events
      { subscribedAddr := true, subscribedLink := true,
        subscribedRoute := true, steps := r.2, finalState := some r.1 }

/-! ## Helper lemmas -/

/-- `handleLinkUpdate` sends exactly once on every call: `send(c)` is the
last statement of the function, outside all branches. -/
theorem handleLinkUpdate_signals (u : LinkUpdate) (s : MonitorState) :
    (handleLinkUpdate u s).signals = 1 := by
  unfold handleLinkUpdate
  repeat' split
  all_goals rfl

/-- `handleRouteUpdate` sends exactly once on every call. -/
theorem handleRouteUpdate_signals (u : RouteUpdate) :
    (handleRouteUpdate u).1 = 1 := by
  unfold handleRouteUpdate
  repeat' split
  all_goals rfl

/-! ## C10: link updates of an unknown header type -/

/-- C10: a link update whose header type is neither `RTM_NEWLINK` nor
`RTM_DELLINK` falls through every branch of `handleLinkUpdate`: the state is
unchanged, no classification is logged, and the trailing `send(c)` still
emits exactly one generic change signal. -/
theorem unknown_link_type_signal_no_state_change (u : LinkUpdate)
    (s : MonitorState) (h1 : u.headerType ≠ RTM_NEWLINK)
    (h2 : u.headerType ≠ RTM_DELLINK) :
    handleLinkUpdate u s =
      { state := s, signals := 1, classification := none } := by
  simp [handleLinkUpdate, h1, h2]

/-- C10 witness: header type 18 on an empty state. -/
theorem unknown_link_type_signal_no_state_change_witness :
    handleLinkUpdate { headerType := 18, name := "eth0", flags := 0 }
      { interfaces := ∅, newlyCreated := ∅ } =
    { state := { interfaces := ∅, newlyCreated := ∅ }, signals := 1,
      classification := none } :=
  unknown_link_type_signal_no_state_change
    { headerType := 18, name := "eth0", flags := 0 }
    { interfaces := ∅, newlyCreated := ∅ } (by decide) (by decide)

/-! ## C4: unresolvable address events -/

/-- C4: when the owning interface index of an address event does not resolve
to a live interface, the handler returns before `send(c)`: zero signals, no
classification, and the dispatcher leaves the state untouched (both in the
unmasked loop and in the masked loop with the address class enabled). -/
theorem addr_unresolved_no_signal_no_mutation (resolve : Int → Option String)
    (u : AddrUpdate) (s : MonitorState) (en : Enabled)
    (h : resolve u.linkIndex = none) (han : en.addr = true) :
    handleAddrUpdate resolve u = (0, none) ∧
    stepUnmasked resolve s (.addr u) =
      { state := s, signals := 0, classification := none,
        handlerInvoked := true } ∧
    stepMasked en resolve s (.addr u) =
      { state := s, signals := 0, classification := none,
        handlerInvoked := true } := by
  refine ⟨?_, ?_, ?_⟩ <;> simp [handleAddrUpdate, stepUnmasked, stepMasked, h, han]

/-- C4 witness: an address event on index 3 with a resolver that knows no
index. -/
theorem addr_unresolved_no_signal_no_mutation_witness :
    handleAddrUpdate (fun _ => none)
      { linkIndex := 3, newAddr := true, ip := "10.0.0.1" } = (0, none) ∧
    stepUnmasked (fun _ => none) { interfaces := ∅, newlyCreated := ∅ }
      (.addr { linkIndex := 3, newAddr := true, ip := "10.0.0.1" }) =
      { state := { interfaces := ∅, newlyCreated := ∅ }, signals := 0,
        classification := none, handlerInvoked := true } ∧
    stepMasked { link := true, addr := true, route := true } (fun _ => none)
      { interfaces := ∅, newlyCreated := ∅ }
      (.addr { linkIndex := 3, newAddr := true, ip := "10.0.0.1" }) =
      { state := { interfaces := ∅, newlyCreated := ∅ }, signals := 0,
        classification := none, handlerInvoked := true } :=
  addr_unresolved_no_signal_no_mutation (fun _ => none)
    { linkIndex := 3, newAddr := true, ip := "10.0.0.1" }
    { interfaces := ∅, newlyCreated := ∅ }
    { link := true, addr := true, route := true } rfl rfl

/-! ## C3: link deletion -/

/-- C3: a link-delete event removes the name from both sets whatever the
prior state; deleting a name absent from both sets leaves the state exactly
unchanged (absence is not an error — the handler is total); and deleting
twice gives the same state as deleting once. -/
theorem link_delete_removes_both_idempotent (u : LinkUpdate)
    (s : MonitorState) (hdel : u.headerType = RTM_DELLINK) :
    u.name ∉ (handleLinkUpdate u s).state.interfaces ∧
    u.name ∉ (handleLinkUpdate u s).state.newlyCreated ∧
    (u.name ∉ s.interfaces → u.name ∉ s.newlyCreated →
      (handleLinkUpdate u s).state = s) ∧
    (handleLinkUpdate u (handleLinkUpdate u s).state).state =
      (handleLinkUpdate u s).state := by
  simp only [handleLinkUpdate, hdel, if_pos rfl]
  refine ⟨Finset.not_mem_erase _ _, Finset.not_mem_erase _ _, ?_, ?_⟩
  · intro h1 h2
    simp [Finset.erase_eq_of_not_mem h1, Finset.erase_eq_of_not_mem h2]
  · simp [Finset.erase_idem]

/-- C3 witness: deleting `eth0` from the empty state (the name is in neither
set), once and twice. -/
theorem link_delete_removes_both_idempotent_witness :
    "eth0" ∉ (handleLinkUpdate { headerType := 17, name := "eth0", flags := 0 }
      { interfaces := ∅, newlyCreated := ∅ }).state.interfaces ∧
    (handleLinkUpdate { headerType := 17, name := "eth0", flags := 0 }
      { interfaces := ∅, newlyCreated := ∅ }).state =
      { interfaces := ∅, newlyCreated := ∅ } ∧
    (handleLinkUpdate { headerType := 17, name := "eth0", flags := 0 }
      (handleLinkUpdate { headerType := 17, name := "eth0", flags := 0 }
        { interfaces := ∅, newlyCreated := ∅ }).state).state =
      (handleLinkUpdate { headerType := 17, name := "eth0", flags := 0 }
        { interfaces := ∅, newlyCreated := ∅ }).state := by
  have h := link_delete_removes_both_idempotent
    { headerType := 17, name := "eth0", flags := 0 }
    { interfaces := ∅, newlyCreated := ∅ } rfl
  exact ⟨h.1, h.2.2.1 (by decide) (by decide), h.2.2.2⟩

/-! ## C2: suppression of the transient down right after creation -/

/-- C2: a link-add event for a name absent from the Existence Set, followed
directly by a link-modified event for the same name with the up flag clear,
does not produce the `down` classification for the second event (the handler
takes the suppressed branch and logs nothing), and the name is still in the
Newly-Created Set afterwards. -/
theorem add_then_down_suppressed (s : MonitorState) (name : String)
    (fl1 fl2 : Nat) (habs : name ∉ s.interfaces)
    (hdown : fl2 &&& netFlagUp = 0) :
    (handleLinkUpdate { headerType := RTM_NEWLINK, name := name, flags := fl2 }
        (handleLinkUpdate
          { headerType := RTM_NEWLINK, name := name, flags := fl1 }
          s).state).classification ≠ some .linkDown ∧
    name ∈ (handleLinkUpdate
        { headerType := RTM_NEWLINK, name := name, flags := fl2 }
        (handleLinkUpdate
          { headerType := RTM_NEWLINK, name := name, flags := fl1 }
          s).state).state.newlyCreated := by
  have h1 : handleLinkUpdate
      { headerType := RTM_NEWLINK, name := name, flags := fl1 } s =
      { state := { interfaces := insert name s.interfaces,
                   newlyCreated := insert name s.newlyCreated },
        signals := 1, classification := some .linkAdded } := by
    simp [handleLinkUpdate, RTM_NEWLINK, RTM_DELLINK, habs]
  rw [h1]
  have h2 : handleLinkUpdate
      { headerType := RTM_NEWLINK, name := name, flags := fl2 }
      { interfaces := insert name s.interfaces,
        newlyCreated := insert name s.newlyCreated } =
      { state := { interfaces := insert name s.interfaces,
                   newlyCreated := insert name s.newlyCreated },
        signals := 1, classification := none } := by
    simp [handleLinkUpdate, RTM_NEWLINK, RTM_DELLINK, hdown]
  rw [h2]
  exact ⟨by simp, Finset.mem_insert_self name _⟩

/-- C2 witness: add `eth0` to the empty state, then a modified event with
flags 0 (up bit clear). -/
theorem add_then_down_suppressed_witness :
    (handleLinkUpdate { headerType := RTM_NEWLINK, name := "eth0", flags := 0 }
        (handleLinkUpdate
          { headerType := RTM_NEWLINK, name := "eth0", flags := 0 }
          { interfaces := ∅, newlyCreated := ∅ }).state).classification ≠
      some .linkDown ∧
    "eth0" ∈ (handleLinkUpdate
        { headerType := RTM_NEWLINK, name := "eth0", flags := 0 }
        (handleLinkUpdate
          { headerType := RTM_NEWLINK, name := "eth0", flags := 0 }
          { interfaces := ∅, newlyCreated := ∅ }).state).state.newlyCreated :=
  add_then_down_suppressed { interfaces := ∅, newlyCreated := ∅ } "eth0" 0 0
    (by decide) (by decide)

/-! ## C1: one signal per processed event of an enabled class -/

/-- C1: every link and route event of an enabled class, and every address
event of an enabled class whose interface index resolves, causes exactly one
send on the output channel — whatever the mask, the prior state, and the
classification (including the suppressed branch of the link handler). -/
theorem enabled_event_emits_one_signal (en : Enabled)
    (resolve : Int → Option String) (s : MonitorState) (e : NetEvent)
    (hen : classEnabled en (classOf e) = true)
    (hres : ∀ u, e = NetEvent.addr u → (resolve u.linkIndex).isSome = true) :
    (stepMasked en resolve s e).signals = 1 := by
  cases e with
  | link u =>
      simp only [classEnabled, classOf] at hen
      simp [stepMasked, hen, handleLinkUpdate_signals]
  | addr u =>
      simp only [classEnabled, classOf] at hen
      have h := hres u rfl
      rcases hr : resolve u.linkIndex with _ | v
      · rw [hr] at h
        simp at h
      · rcases hn : u.newAddr <;>
          simp [stepMasked, hen, handleAddrUpdate, hr, hn]
  | route u =>
      simp only [classEnabled, classOf] at hen
      simp [stepMasked, hen, handleRouteUpdate_signals]

/-- C1 witness: an address event with all classes enabled and a resolver
that always answers. -/
theorem enabled_event_emits_one_signal_witness :
    (stepMasked { link := true, addr := true, route := true }
      (fun _ => some "eth0") { interfaces := ∅, newlyCreated := ∅ }
      (.addr { linkIndex := 5, newAddr := true, ip := "10.0.0.1" })).signals
      = 1 :=
  enabled_event_emits_one_signal
    { link := true, addr := true, route := true } (fun _ => some "eth0")
    { interfaces := ∅, newlyCreated := ∅ }
    (.addr { linkIndex := 5, newAddr := true, ip := "10.0.0.1" })
    rfl (fun _ _ => rfl)

/-! ## C5: invalid interest mask -/

/-- C5: any flag outside 1..7 hits the `default` arm of the switch in
`StartMonitoring`: the error is the only outcome — no subscription is
established, no event is processed, no signal is ever emitted. -/
theorem invalid_flag_no_session (flag : Int) (initialLinks : List String)
    (resolve : Int → Option String) (events : List NetEvent)
    (h : ¬(1 ≤ flag ∧ flag ≤ 7)) :
    maskEnabled flag = none ∧
    StartMonitoringSession flag initialLinks resolve events =
      { subscribedAddr := false, subscribedLink := false,
        subscribedRoute := false, steps := [], finalState := none } := by
  have h1 : ¬flag = 1 := by omega
  have h2 : ¬flag = 2 := by omega
  have h3 : ¬flag = 3 := by omega
  have h4 : ¬flag = 4 := by omega
  have h5 : ¬flag = 5 := by omega
  have h6 : ¬flag = 6 := by omega
  have h7 : ¬flag = 7 := by omega
  have hm : maskEnabled flag = none := by
    simp [maskEnabled, h1, h2, h3, h4, h5, h6, h7]
  exact ⟨hm, by simp [StartMonitoringSession, hm]⟩

/-- C5 witness: flag 0 (the repository's flags are 1..7 only). -/
theorem invalid_flag_no_session_witness :
    maskEnabled 0 = none ∧
    StartMonitoringSession 0 ["eth0"] (fun _ => none)
      [.route { routeType := 24, dst := "10.0.0.0/8" }] =
      { subscribedAddr := false, subscribedLink := false,
        subscribedRoute := false, steps := [], finalState := none } :=
  invalid_flag_no_session 0 ["eth0"] (fun _ => none)
    [.route { routeType := 24, dst := "10.0.0.0/8" }] (by decide)

/-! ## C6: disabled classes are received but dropped -/

/-- C6: under any valid mask, an event whose class is disabled is taken off
its channel but its handler is never invoked: the state is untouched, no
classification is logged and no signal is sent — while all three
subscriptions are still established by the session. -/
theorem disabled_class_dropped (flag : Int) (en : Enabled)
    (resolve : Int → Option String) (s : MonitorState) (e : NetEvent)
    (initialLinks : List String) (events : List NetEvent)
    (hm : maskEnabled flag = some en)
    (hd : classEnabled en (classOf e) = false) :
    stepMasked en resolve s e =
      { state := s, signals := 0, classification := none,
        handlerInvoked := false } ∧
    (StartMonitoringSession flag initialLinks resolve events).subscribedLink
      = true ∧
    (StartMonitoringSession flag initialLinks resolve events).subscribedAddr
      = true ∧
    (StartMonitoringSession flag initialLinks resolve events).subscribedRoute
      = true := by
  refine ⟨?_, ?_, ?_, ?_⟩
  · cases e <;> simp only [classEnabled, classOf] at hd <;>
      simp [stepMasked, hd]
  all_goals simp [StartMonitoringSession, hm]

/-- C6 witness: mask 1 (link only) with a route event. -/
theorem disabled_class_dropped_witness :
    stepMasked { link := true, addr := false, route := false }
      (fun _ => none) { interfaces := ∅, newlyCreated := ∅ }
      (.route { routeType := 24, dst := "10.0.0.0/8" }) =
      { state := { interfaces := ∅, newlyCreated := ∅ }, signals := 0,
        classification := none, handlerInvoked := false } ∧
    (StartMonitoringSession 1 ["eth0"] (fun _ => none) []).subscribedLink
      = true ∧
    (StartMonitoringSession 1 ["eth0"] (fun _ => none) []).subscribedAddr
      = true ∧
    (StartMonitoringSession 1 ["eth0"] (fun _ => none) []).subscribedRoute
      = true :=
  disabled_class_dropped 1 { link := true, addr := false, route := false }
    (fun _ => none) { interfaces := ∅, newlyCreated := ∅ }
    (.route { routeType := 24, dst := "10.0.0.0/8" }) ["eth0"] []
    (by decide) rfl

/-! ## C9: the two entry points agree when every class is enabled -/

/-- With every class enabled the masked dispatcher step is the unmasked
dispatcher step. -/
theorem stepMasked_all_enabled (resolve : Int → Option String)
    (s : MonitorState) (e : NetEvent) :
    stepMasked { link := true, addr := true, route := true } resolve s e =
      stepUnmasked resolve s e := by
  cases e <;> rfl

/-- With every class enabled the masked dispatcher loop is the unmasked
dispatcher loop. -/
theorem runMasked_all_enabled (resolve : Int → Option String)
    (s : MonitorState) (events : List NetEvent) :
    runMasked { link := true, addr := true, route := true } resolve s events =
      runUnmasked resolve s events := by
  induction events generalizing s with
  | nil => rfl
  | cons e rest ih =>
      simp [runMasked, runUnmasked, stepMasked_all_enabled, ih]

/-- C9: flag 7 decodes to all three classes enabled, the masked loop then
equals the unmasked loop step for step (same states, same signal counts,
same classifications), and the two entry points produce identical sessions
for every seeding, resolver and event sequence. -/
theorem masked_all_equals_unmasked (initialLinks : List String)
    (resolve : Int → Option String) (s : MonitorState)
    (events : List NetEvent) :
    maskEnabled 7 = some { link := true, addr := true, route := true } ∧
    runMasked { link := true, addr := true, route := true } resolve s events =
      runUnmasked resolve s events ∧
    StartMonitoringSession 7 initialLinks resolve events =
      startMonitoringSession initialLinks resolve events := by
  refine ⟨by decide, runMasked_all_enabled resolve s events, ?_⟩
  have hm : maskEnabled 7 =
      some { link := true, addr := true, route := true } := by decide
  simp [StartMonitoringSession, startMonitoringSession, hm,
    runMasked_all_enabled]

/-! ## C7: the Newly-Created Set is a subset of the Existence Set -/

/-- The link handler preserves `newlyCreated ⊆ interfaces`. -/
theorem handleLinkUpdate_inv (u : LinkUpdate) (s : MonitorState)
    (h : s.newlyCreated ⊆ s.interfaces) :
    (handleLinkUpdate u s).state.newlyCreated ⊆
      (handleLinkUpdate u s).state.interfaces := by
  unfold handleLinkUpdate
  split
  · exact Finset.erase_subset_erase _ h
  split
  · exact Finset.insert_subset_insert _ h
  split
  · split
    · exact (Finset.erase_subset _ _).trans h
    split
    · exact h
    · exact h
  · exact h

/-- The unmasked dispatcher step preserves `newlyCreated ⊆ interfaces`. -/
theorem stepUnmasked_inv (resolve : Int → Option String) (s : MonitorState)
    (e : NetEvent) (h : s.newlyCreated ⊆ s.interfaces) :
    (stepUnmasked resolve s e).state.newlyCreated ⊆
      (stepUnmasked resolve s e).state.interfaces := by
  cases e with
  | link u => exact handleLinkUpdate_inv u s h
  | addr u => exact h
  | route u => exact h

/-- The masked dispatcher step preserves `newlyCreated ⊆ interfaces`. -/
theorem stepMasked_inv (en : Enabled) (resolve : Int → Option String)
    (s : MonitorState) (e : NetEvent)
    (h : s.newlyCreated ⊆ s.interfaces) :
    (stepMasked en resolve s e).state.newlyCreated ⊆
      (stepMasked en resolve s e).state.interfaces := by
  cases e with
  | link u =>
      by_cases hl : en.link = true
      · simpa [stepMasked, hl] using handleLinkUpdate_inv u s h
      · simp only [Bool.not_eq_true] at hl
        simpa [stepMasked, hl] using h
  | addr u =>
      rcases ha : en.addr <;> simp [stepMasked, ha, handleAddrUpdate] <;>
        exact h
  | route u =>
      rcases hr : en.route <;> simp [stepMasked, hr] <;> exact h

/-- The unmasked loop preserves `newlyCreated ⊆ interfaces`. -/
theorem runUnmasked_inv (resolve : Int → Option String) (s : MonitorState)
    (events : List NetEvent) (h : s.newlyCreated ⊆ s.interfaces) :
    (runUnmasked resolve s events).1.newlyCreated ⊆
      (runUnmasked resolve s events).1.interfaces := by
  induction events generalizing s with
  | nil => exact h
  | cons e rest ih => exact ih _ (stepUnmasked_inv resolve s e h)

/-- The masked loop preserves `newlyCreated ⊆ interfaces`. -/
theorem runMasked_inv (en : Enabled) (resolve : Int → Option String)
    (s : MonitorState) (events : List NetEvent)
    (h : s.newlyCreated ⊆ s.interfaces) :
    (runMasked en resolve s events).1.newlyCreated ⊆
      (runMasked en resolve s events).1.interfaces := by
  induction events generalizing s with
  | nil => exact h
  | cons e rest ih => exact ih _ (stepMasked_inv en resolve s e h)

/-- C7: the Newly-Created Set is contained in the Existence Set in the
seeded initial state (`newlyCreated` starts empty) and in the state reached
after processing any event sequence, through either dispatcher loop. -/
theorem newlyCreated_subset_interfaces (initialLinks : List String)
    (resolve : Int → Option String) (en : Enabled)
    (events : List NetEvent) :
    (seedState initialLinks).newlyCreated ⊆
      (seedState initialLinks).interfaces ∧
    (runUnmasked resolve (seedState initialLinks) events).1.newlyCreated ⊆
      (runUnmasked resolve (seedState initialLinks) events).1.interfaces ∧
    (runMasked en resolve (seedState initialLinks) events).1.newlyCreated ⊆
      (runMasked en resolve (seedState initialLinks) events).1.interfaces := by
  have h0 : (seedState initialLinks).newlyCreated ⊆
      (seedState initialLinks).interfaces := by
    simp [seedState]
  exact ⟨h0, runUnmasked_inv resolve _ events h0,
    runMasked_inv en resolve _ events h0⟩

/-! ## C8: the Existence Set tracks the processed-event history -/

/-- Whether an event is a link-add notification (`RTM_NEWLINK`) for the
given name. -/
def isLinkAddFor (name : String) : NetEvent → Bool
  | .link u => decide (u.name = name ∧ u.headerType = RTM_NEWLINK)
  | _ => false

/-- Whether an event is a link-delete notification (`RTM_DELLINK`) for the
given name. -/
def isLinkDelFor (name : String) : NetEvent → Bool
  | .link u => decide (u.name = name ∧ u.headerType = RTM_DELLINK)
  | _ => false

/-- The presence bit for a name after one more event, per the spec's
history reading: a link-add makes it present, a link-delete absent, any
other event leaves it alone. -/
def seedAfter (seeded : Bool) (name : String) (e : NetEvent) : Bool :=
  if isLinkAddFor name e then true
  else if isLinkDelFor name e then false
  else seeded

/-- The spec's characterization of presence, stated over the processed-event
history: a link-add notification has been processed for the name with no
link-delete notification for it processed afterwards, or the name was seeded
by the startup enumeration and no link-delete for it was ever processed. -/
def specPresentP (seeded : Bool) (name : String)
    (events : List NetEvent) : Prop :=
  (∃ before a after, events = before ++ a :: after ∧
      isLinkAddFor name a = true ∧
      ∀ d ∈ after, isLinkDelFor name d = false) ∨
  (seeded = true ∧ ∀ d ∈ events, isLinkDelFor name d = false)

/-- On the empty history, presence is exactly the seeding bit. -/
theorem specPresentP_nil (seeded : Bool) (name : String) :
    specPresentP seeded name [] ↔ seeded = true := by
  constructor
  · rintro (⟨b, a, l, heq, _, _⟩ | ⟨hs, _⟩)
    · simp at heq
    · exact hs
  · intro hs
    exact Or.inr ⟨hs, by simp⟩

/-- Unrolling the history by one event: presence over `e :: rest` is
presence over `rest` from the seeding bit updated by `e`. -/
theorem specPresentP_cons (seeded : Bool) (name : String) (e : NetEvent)
    (rest : List NetEvent) :
    specPresentP seeded name (e :: rest) ↔
      specPresentP (seedAfter seeded name e) name rest := by
  constructor
  · rintro (⟨b, a, l, heq, hadd, hnodel⟩ | ⟨hs, hnodel⟩)
    · cases b with
      | nil =>
          simp only [List.nil_append] at heq
          injection heq with he hr
          subst he
          subst hr
          exact Or.inr ⟨by simp [seedAfter, hadd], hnodel⟩
      | cons x b =>
          injection heq with he hr
          exact Or.inl ⟨b, a, l, hr, hadd, hnodel⟩
    · have hde : isLinkDelFor name e = false := hnodel e (by simp)
      have hrest : ∀ d ∈ rest, isLinkDelFor name d = false :=
        fun d hd => hnodel d (by simp [hd])
      refine Or.inr ⟨?_, hrest⟩
      by_cases hae : isLinkAddFor name e = true
      · simp [seedAfter, hae]
      · simp only [Bool.not_eq_true] at hae
        simp [seedAfter, hae, hde, hs]
  · rintro (⟨b, a, l, heq, hadd, hnodel⟩ | ⟨hs, hnodel⟩)
    · exact Or.inl ⟨e :: b, a, l, by rw [heq]; rfl, hadd, hnodel⟩
    · by_cases hae : isLinkAddFor name e = true
      · exact Or.inl ⟨[], e, rest, rfl, hae, hnodel⟩
      · simp only [Bool.not_eq_true] at hae
        have hde : isLinkDelFor name e = false := by
          by_contra hc
          simp only [Bool.not_eq_false] at hc
          simp [seedAfter, hae, hc] at hs
        have hseed : seeded = true := by
          simpa [seedAfter, hae, hde] using hs
        refine Or.inr ⟨hseed, ?_⟩
        intro d hd
        rcases List.mem_cons.mp hd with rfl | hd
        · exact hde
        · exact hnodel d hd

/-- The Existence Set state after a link-delete event. -/
theorem handleLinkUpdate_state_del (u : LinkUpdate) (s : MonitorState)
    (hdel : u.headerType = RTM_DELLINK) :
    (handleLinkUpdate u s).state =
      { interfaces := s.interfaces.erase u.name,
        newlyCreated := s.newlyCreated.erase u.name } := by
  unfold handleLinkUpdate
  rw [if_pos hdel]

/-- The state after a link-add event (name not yet present). -/
theorem handleLinkUpdate_state_add (u : LinkUpdate) (s : MonitorState)
    (hnew : u.headerType = RTM_NEWLINK) (hmem : u.name ∉ s.interfaces) :
    (handleLinkUpdate u s).state =
      { interfaces := insert u.name s.interfaces,
        newlyCreated := insert u.name s.newlyCreated } := by
  have hdel : ¬u.headerType = RTM_DELLINK := by rw [hnew]; decide
  unfold handleLinkUpdate
  rw [if_neg hdel, if_pos ⟨hmem, hnew⟩]

/-- A link-modified event (name already present) never changes the
Existence Set, whichever of the up / suppressed / down branches runs. -/
theorem handleLinkUpdate_interfaces_mod (u : LinkUpdate) (s : MonitorState)
    (hnew : u.headerType = RTM_NEWLINK) (hmem : u.name ∈ s.interfaces) :
    (handleLinkUpdate u s).state.interfaces = s.interfaces := by
  have hdel : ¬u.headerType = RTM_DELLINK := by rw [hnew]; decide
  unfold handleLinkUpdate
  rw [if_neg hdel,
    if_neg (show ¬(u.name ∉ s.interfaces ∧ u.headerType = RTM_NEWLINK) from
      fun hc => hc.1 hmem),
    if_pos hnew]
  split
  · rfl
  split
  · rfl
  · rfl

/-- A link update of any other header type leaves the state untouched. -/
theorem handleLinkUpdate_state_other (u : LinkUpdate) (s : MonitorState)
    (hnew : ¬u.headerType = RTM_NEWLINK)
    (hdel : ¬u.headerType = RTM_DELLINK) :
    (handleLinkUpdate u s).state = s := by
  unfold handleLinkUpdate
  rw [if_neg hdel,
    if_neg (show ¬(u.name ∉ s.interfaces ∧ u.headerType = RTM_NEWLINK) from
      fun hc => hnew hc.2),
    if_neg hnew]

/-- One unmasked dispatcher step changes the presence bit of a name exactly
as `seedAfter` says: a link-add for the name makes it present, a link-delete
absent, every other event (including address, route, modified-link and
unknown-type events) leaves it alone. -/
theorem stepUnmasked_mem_interfaces (resolve : Int → Option String)
    (s : MonitorState) (e : NetEvent) (name : String) :
    decide (name ∈ (stepUnmasked resolve s e).state.interfaces) =
      seedAfter (decide (name ∈ s.interfaces)) name e := by
  cases e with
  | addr u => simp [stepUnmasked, seedAfter, isLinkAddFor, isLinkDelFor]
  | route u => simp [stepUnmasked, seedAfter, isLinkAddFor, isLinkDelFor]
  | link u =>
      have hls : (stepUnmasked resolve s (NetEvent.link u)).state =
          (handleLinkUpdate u s).state := rfl
      rw [hls]
      by_cases hn : u.name = name
      · subst hn
        by_cases hnew : u.headerType = RTM_NEWLINK
        · have hR : seedAfter (decide (u.name ∈ s.interfaces)) u.name
              (NetEvent.link u) = true := by
            simp [seedAfter, isLinkAddFor, hnew]
          rw [hR]
          by_cases hmem : u.name ∈ s.interfaces
          · rw [handleLinkUpdate_interfaces_mod u s hnew hmem]
            simp [hmem]
          · rw [handleLinkUpdate_state_add u s hnew hmem]
            simp
        · by_cases hdel : u.headerType = RTM_DELLINK
          · have hR : seedAfter (decide (u.name ∈ s.interfaces)) u.name
                (NetEvent.link u) = false := by
              simp [seedAfter, isLinkAddFor, isLinkDelFor, hdel, hnew,
                RTM_NEWLINK, RTM_DELLINK]
            rw [hR, handleLinkUpdate_state_del u s hdel]
            simp [Finset.mem_erase]
          · have hR : seedAfter (decide (u.name ∈ s.interfaces)) u.name
                (NetEvent.link u) = decide (u.name ∈ s.interfaces) := by
              simp [seedAfter, isLinkAddFor, isLinkDelFor, hdel, hnew]
            rw [hR, handleLinkUpdate_state_other u s hnew hdel]
      · have hR : seedAfter (decide (name ∈ s.interfaces)) name
            (NetEvent.link u) = decide (name ∈ s.interfaces) := by
          simp [seedAfter, isLinkAddFor, isLinkDelFor, hn]
        rw [hR]
        have hn2 : ¬name = u.name := fun h => hn h.symm
        by_cases hnew : u.headerType = RTM_NEWLINK
        · by_cases hmem : u.name ∈ s.interfaces
          · rw [handleLinkUpdate_interfaces_mod u s hnew hmem]
          · rw [handleLinkUpdate_state_add u s hnew hmem]
            simp [Finset.mem_insert, hn2]
        · by_cases hdel : u.headerType = RTM_DELLINK
          · rw [handleLinkUpdate_state_del u s hdel]
            simp [Finset.mem_erase, hn2]
          · rw [handleLinkUpdate_state_other u s hnew hdel]

/-- Presence of a name after the unmasked loop is the spec predicate over
the processed history, seeded with its initial presence. -/
theorem runUnmasked_mem_specP (resolve : Int → Option String) (name : String)
    (events : List NetEvent) (s : MonitorState) :
    (name ∈ (runUnmasked resolve s events).1.interfaces) ↔
      specPresentP (decide (name ∈ s.interfaces)) name events := by
  induction events generalizing s with
  | nil => simp [runUnmasked, specPresentP_nil]
  | cons e rest ih =>
      have hstep : (runUnmasked resolve s (e :: rest)).1 =
          (runUnmasked resolve (stepUnmasked resolve s e).state rest).1 := rfl
      rw [hstep, ih, stepUnmasked_mem_interfaces]
      exact (specPresentP_cons _ _ _ _).symm

/-- A name is in the seeded Existence Set exactly when the startup
enumeration listed it. -/
theorem seedState_mem (initialLinks : List String) (name : String) :
    name ∈ (seedState initialLinks).interfaces ↔ name ∈ initialLinks := by
  suffices h : ∀ (l : List String) (acc : Finset String),
      name ∈ l.foldl (fun acc n => insert n acc) acc ↔
        name ∈ l ∨ name ∈ acc by
    simpa [seedState] using h initialLinks ∅
  intro l
  induction l with
  | nil => intro acc; simp
  | cons x xs ih =>
      intro acc
      simp only [List.foldl_cons, ih, Finset.mem_insert, List.mem_cons]
      tauto

/-- C8: in any state the monitor session reaches, a name is in the
Existence Set exactly when a link-add notification for it has been processed
with no subsequent link-delete notification for it, or the startup
enumeration seeded it and no link-delete for it was ever processed. -/
theorem existence_set_tracks_history (initialLinks : List String)
    (resolve : Int → Option String) (name : String)
    (events : List NetEvent) :
    (name ∈ (runUnmasked resolve (seedState initialLinks) events).1.interfaces)
      ↔ specPresentP (decide (name ∈ initialLinks)) name events := by
  rw [runUnmasked_mem_specP]
  have hseed : decide (name ∈ (seedState initialLinks).interfaces) =
      decide (name ∈ initialLinks) := by
    simp [seedState_mem]
  rw [hseed]
